import Mathlib

/-!
Shallow embedding of the TTML lyrics extractor `AppleMusic::parse_ttml`
(src/src/lib.rs, lines 120-230) of the onetagger-apple-music repository,
together with the data model it produces (`LyricsLine`, `LyricsLinePart`,
`Lyrics` from the external onetagger_tagger crate, used here only as plain
records).

The extractor consumes a stream of XML tokens (produced by the external
`xmlparser` tokenizer).  We model the token kinds the extractor's `match`
distinguishes: element starts, attributes, element ends (where only the
`Close` variant carrying a name is ever inspected), text runs, and the
catch-all for every other token kind (`_ => continue`).  Each stream item
is an `Except`, mirroring `let token = token?` which propagates a
tokenizer-level lexical error.

Rust `unwrap()` on an empty `Option` aborts the process; we model that
abnormal abort as the distinguished error `PErr.panicErr`, kept apart from
the ordinary `Err` returns (tokenizer errors and timestamp-parse errors).

Durations are modelled as natural numbers of milliseconds.
-/

/-- `LyricsLinePart` from onetagger_tagger: a timed sub-fragment of a line. -/
structure LyricsLinePart where
  text : String
  start : Option Nat
  «end» : Option Nat
deriving Repr, DecidableEq

/-- `LyricsLine` from onetagger_tagger: one lyric line with optional timing
and word-level parts. -/
structure LyricsLine where
  text : String
  start : Option Nat
  «end» : Option Nat
  parts : List LyricsLinePart
deriving Repr, DecidableEq

/-- `Lyrics` from onetagger_tagger: the whole document returned by
`parse_ttml`. -/
structure Lyrics where
  paragraphs : List (List LyricsLine)
  language : String
deriving Repr, DecidableEq

/-- The XML token kinds distinguished by the extractor's `match`:
`elementStart` (`Token::ElementStart`, carrying the local name), `attr`
(`Token::Attribute`, local name and value), `elementEnd` (`Token::ElementEnd`
whose payload is `some name` exactly for the `ElementEnd::Close(_, name)`
variant and `none` for `ElementEnd::Open` / `ElementEnd::Empty`), `text`
(`Token::Text`) and `other` (every remaining token kind, hit by the
`_ => continue` arm). -/
inductive XmlToken where
  | elementStart (name : String)
  | attr (name value : String)
  | elementEnd (close : Option String)
  | text (s : String)
  | other
deriving Repr, DecidableEq

/-- Errors of a `parse_ttml` run: `lexErr` models a tokenizer item that is
`Err` (propagated by `let token = token?`), `tsErr` a timestamp string the
external parser rejects (propagated by `?` on `parse_lrc_timestamp`), and
`panicErr` a Rust panic from `unwrap()` on an empty `Option` (abnormal
abort, not an ordinary `Err` return). -/
inductive PErr where
  | lexErr (msg : String)
  | tsErr (msg : String)
  | panicErr
deriving Repr, DecidableEq

/-- The extractor's mutable local state: the three booleans `is_body`,
`is_line_header`, `is_synced_line`, the finished `paragraphs`, the current
`paragraph` buffer, and the in-progress `line` and `part` options
(src/src/lib.rs lines 121-128). -/
structure PState where
  is_body : Bool
  is_line_header : Bool
  is_synced_line : Bool
  paragraphs : List (List LyricsLine)
  paragraph : List LyricsLine
  line : Option LyricsLine
  part : Option LyricsLinePart
deriving Repr, DecidableEq

/-- Initial extractor state (all flags false, empty buffers, no in-progress
line or part). -/
def initState : PState :=
  { is_body := false, is_line_header := false, is_synced_line := false,
    paragraphs := [], paragraph := [], line := none, part := none }

/-- The text-merge fallback at the close of a `p`: the space-joined
concatenation of the part texts
(`line.parts.iter().map(|p| p.text.as_str()).collect::<Vec<_>>().join(" ")`,
src/src/lib.rs line 189). -/
def joinParts (ps : List LyricsLinePart) : String :=
  String.intercalate " " (ps.map (fun p => p.text))

/-- Lift the external timestamp parser's result into the extractor's error
type, as the `?` at src/src/lib.rs lines 162-163 and 172-173 does. -/
def tsRun (ts : String → Except String Nat) (v : String) : Except PErr Nat :=
  match ts v with
  | .ok d => .ok d
  | .error e => .error (.tsErr e)

/-- One iteration of the token loop of `parse_ttml`
(src/src/lib.rs lines 130-226), parameterised by the external timestamp
parser `ts` (`Lyrics::parse_lrc_timestamp`).  Returns the updated state and
a flag that is `true` exactly when the loop `break`s (close of `body`). -/
def step (ts : String → Except String Nat) (st : PState) (t : XmlToken) :
    Except PErr (PState × Bool) :=
  match t with
  | .elementStart l =>
      -- Check for body start
      if l = "body" then .ok ({ st with is_body := true }, false)
      else if st.is_body = false then .ok (st, false)
      else
        -- Line start
        let st1 := if l = "p" then
            { st with
              line := some { text := "", start := none, «end» := none, parts := [] },
              is_line_header := true,
              is_synced_line := false }
          else st
        -- Synced line
        let st2 := if l = "span" then
            { st1 with
              part := some { text := "", start := none, «end» := none },
              is_line_header := false,
              is_synced_line := true }
          else st1
        .ok (st2, false)
  | .attr l v => do
      -- Parse line attributes
      let stA ←
        if st.is_line_header then
          match st.line with
          | none => Except.error PErr.panicErr
          | some ln =>
            if l = "begin" then do
              let d ← tsRun ts v
              pure { st with line := some { ln with start := some d } }
            else if l = "end" then do
              let d ← tsRun ts v
              pure { st with line := some { ln with «end» := some d } }
            else pure st
        else pure st
      -- Parse synced line attribute
      let stB ←
        if stA.is_synced_line then
          match stA.part with
          | none => Except.error PErr.panicErr
          | some pt =>
            if l = "begin" then do
              let d ← tsRun ts v
              pure { stA with part := some { pt with start := some d } }
            else if l = "end" then do
              let d ← tsRun ts v
              pure { stA with part := some { pt with «end» := some d } }
            else pure stA
        else pure stA
      pure (stB, false)
  | .elementEnd c =>
      match c with
      | some l =>
        -- End of body
        if l = "body" then .ok (st, true)
        -- End of line
        else if l = "p" then
          match st.line with
          | none => .error .panicErr
          | some ln =>
            -- Merge text from parts
            let ln2 := if ln.text = "" then { ln with text := joinParts ln.parts } else ln
            .ok ({ st with
                   line := none,
                   is_line_header := false,
                   is_synced_line := false,
                   paragraph := st.paragraph ++ [ln2] }, false)
        -- End of part
        else if l = "span" then
          match st.line, st.part with
          | some ln, some pt =>
              .ok ({ st with
                     is_synced_line := false,
                     part := none,
                     line := some { ln with parts := ln.parts ++ [pt] } }, false)
          | _, _ => .error .panicErr
        -- End of paragraph
        else if l = "div" then
          .ok ({ st with
                 is_line_header := false,
                 is_synced_line := false,
                 paragraphs := st.paragraphs ++ [st.paragraph],
                 paragraph := [] }, false)
        else .ok (st, false)
      | none => .ok (st, false)
  | .text s => do
      -- Unsynced
      let stA ←
        if st.is_line_header then
          match st.line with
          | none => Except.error PErr.panicErr
          | some ln => pure { st with line := some { ln with text := s } }
        else pure st
      -- Synced
      let stB ←
        if stA.is_synced_line then
          match stA.part with
          | none => Except.error PErr.panicErr
          | some pt => pure { stA with part := some { pt with text := s } }
        else pure stA
      pure (stB, false)
  | .other => .ok (st, false)

/-- The token loop of `parse_ttml`: feed the stream items (each an `Except`
as yielded by the tokenizer) through `step`, stopping on the first lexical
error, panic, or `break` (close of `body`).  The boolean of the result
records whether the loop was left by `break`. -/
def runT (ts : String → Except String Nat) :
    PState → List (Except String XmlToken) → Except PErr (PState × Bool)
  | st, [] => .ok (st, false)
  | st, e :: rest =>
    match e with
    | .error msg => .error (.lexErr msg)
    | .ok tok =>
      match step ts st tok with
      | .error pe => .error pe
      | .ok (st', true) => .ok (st', true)
      | .ok (st', false) => runT ts st' rest

/-- `AppleMusic::parse_ttml` (src/src/lib.rs lines 120-230), parameterised
by the external timestamp parser: run the token loop from the initial state
and package the finished paragraphs with the caller-supplied language.  The
in-progress `paragraph` buffer and `line`/`part` are dropped. -/
def parse_ttml (ts : String → Except String Nat)
    (tokens : List (Except String XmlToken)) (language : String) :
    Except PErr Lyrics :=
  match runT ts initState tokens with
  | .error e => .error e
  | .ok (st, _) => .ok { paragraphs := st.paragraphs, language := language }

/-- Split a character list at every occurrence of the separator. -/
def splitOnChar (c : Char) : List Char → List (List Char)
  | [] => [[]]
  | a :: rest =>
    match splitOnChar c rest with
    | [] => if a = c then [[], []] else [[a]]
    | g :: gs => if a = c then [] :: g :: gs else (a :: g) :: gs

/-- The numeric value of a decimal digit character, if it is one. -/
def digitVal (c : Char) : Option Nat :=
  if c = '0' then some 0 else if c = '1' then some 1 else if c = '2' then some 2
  else if c = '3' then some 3 else if c = '4' then some 4 else if c = '5' then some 5
  else if c = '6' then some 6 else if c = '7' then some 7 else if c = '8' then some 8
  else if c = '9' then some 9 else none

/-- Read a nonempty all-digit character list as a decimal number. -/
def digitsToNat : List Char → Option Nat → Option Nat
  | [], acc => acc
  | c :: rest, acc =>
    match digitVal c, acc with
    | some d, some a => digitsToNat rest (some (a * 10 + d))
    | some d, none => digitsToNat rest (some d)
    | none, _ => none

/-- Modelled from the spec: the external timestamp parser
`Lyrics::parse_lrc_timestamp` of the out-of-scope onetagger_tagger crate
(spec section 6: "a function mapping a raw attribute-value string to either a
duration value or a failure").  The spec's concrete scenario fixes the shape
`minutes:seconds.millis` (e.g. `"0:01.000"` is 1.000 s); the result is in
milliseconds. -/
def parse_lrc_timestamp (s : String) : Except String Nat :=
  match splitOnChar ':' s.toList with
  | [m, rest] =>
    match splitOnChar '.' rest with
    | [sec, ms] =>
      match digitsToNat m none, digitsToNat sec none, digitsToNat ms none with
      | some mn, some sc, some msn => .ok ((mn * 60 + sc) * 1000 + msn)
      | _, _, _ => .error s
    | _ => .error s
  | _ => .error s

deriving instance DecidableEq for Except

/-- A plain (unsynced, untimed) line as produced for a `p` with direct text
and no `span` children. -/
def plainLine (t : String) : LyricsLine :=
  { text := t, start := none, «end» := none, parts := [] }

/-- An untimed part as produced for a `span` carrying only text. -/
def plainPart (t : String) : LyricsLinePart :=
  { text := t, start := none, «end» := none }

/-- Token run of one `p` element carrying only a direct text child:
`<p>t</p>`. -/
def pDirectToks (t : String) : List (Except String XmlToken) :=
  [.ok (.elementStart "p"), .ok (.text t), .ok (.elementEnd (some "p"))]

/-- Token run of a sequence of `span` children, one per string:
`<span>u1</span><span>u2</span>...`. -/
def spanToks (ps : List String) : List (Except String XmlToken) :=
  (ps.map fun u =>
    [Except.ok (XmlToken.elementStart "span"), .ok (.text u),
     .ok (.elementEnd (some "span"))]).flatten

/-- Token stream of a body holding one `div` holding one `p` with direct
text: `<body><div><p>t</p></div></body>`. -/
def oneDirectLineToks (t : String) : List (Except String XmlToken) :=
  .ok (.elementStart "body") :: .ok (.elementStart "div") ::
    (pDirectToks t ++ [.ok (.elementEnd (some "div")), .ok (.elementEnd (some "body"))])

/-- Token stream of a body holding one `div` holding one `p` with no direct
text and one `span` child per string of `ps`. -/
def oneSyncedLineToks (ps : List String) : List (Except String XmlToken) :=
  .ok (.elementStart "body") :: .ok (.elementStart "div") :: .ok (.elementStart "p") ::
    (spanToks ps ++
      [.ok (.elementEnd (some "p")), .ok (.elementEnd (some "div")),
       .ok (.elementEnd (some "body"))])

/-- Token stream of the spec's concrete scenario:
`<body><div><p begin="0:01.000" end="0:02.000"><span begin="0:01.000"
end="0:01.500">Hello</span><span begin="0:01.500"
end="0:02.000">world</span></p></div></body>`. -/
def c2Tokens : List (Except String XmlToken) :=
  [.ok (.elementStart "body"), .ok (.elementEnd none),
   .ok (.elementStart "div"), .ok (.elementEnd none),
   .ok (.elementStart "p"), .ok (.attr "begin" "0:01.000"), .ok (.attr "end" "0:02.000"),
   .ok (.elementEnd none),
   .ok (.elementStart "span"), .ok (.attr "begin" "0:01.000"), .ok (.attr "end" "0:01.500"),
   .ok (.elementEnd none),
   .ok (.text "Hello"), .ok (.elementEnd (some "span")),
   .ok (.elementStart "span"), .ok (.attr "begin" "0:01.500"), .ok (.attr "end" "0:02.000"),
   .ok (.elementEnd none),
   .ok (.text "world"), .ok (.elementEnd (some "span")),
   .ok (.elementEnd (some "p")), .ok (.elementEnd (some "div")),
   .ok (.elementEnd (some "body"))]

/-- Token stream with a text run inside a `p` after a closed `span`:
`<body><div><p><span>Hello</span>after</p></div></body>`. -/
def c6Tokens : List (Except String XmlToken) :=
  [.ok (.elementStart "body"), .ok (.elementStart "div"), .ok (.elementStart "p"),
   .ok (.elementStart "span"), .ok (.text "Hello"), .ok (.elementEnd (some "span")),
   .ok (.text "after"), .ok (.elementEnd (some "p")), .ok (.elementEnd (some "div")),
   .ok (.elementEnd (some "body"))]

/-- Token stream with two `div` blocks, each holding one `p` with direct
text: `<body><div><p>t1</p></div><div><p>t2</p></div></body>`. -/
def twoDivToks (t1 t2 : String) : List (Except String XmlToken) :=
  .ok (.elementStart "body") :: .ok (.elementStart "div") ::
    (pDirectToks t1 ++
      (.ok (.elementEnd (some "div")) :: .ok (.elementStart "div") ::
        (pDirectToks t2 ++
          [.ok (.elementEnd (some "div")), .ok (.elementEnd (some "body"))])))

/-- Token stream where a second `p` line follows the last `div` close and is
never flushed: `<body><div><p>t1</p></div><p>t2</p></body>`. -/
def unflushedToks (t1 t2 : String) : List (Except String XmlToken) :=
  .ok (.elementStart "body") :: .ok (.elementStart "div") ::
    (pDirectToks t1 ++
      (.ok (.elementEnd (some "div")) ::
        (pDirectToks t2 ++ [.ok (.elementEnd (some "body"))])))

/-- Token stream of a body with a `p` line but no `div` close at all:
`<body><p>t</p></body>`. -/
def noDivToks (t : String) : List (Except String XmlToken) :=
  .ok (.elementStart "body") :: (pDirectToks t ++ [.ok (.elementEnd (some "body"))])

/-- Splitting a run of the token loop at a list append: the whole run stops
early (with the same result) as soon as the prefix errors or breaks. -/
theorem runT_append (ts : String → Except String Nat) (st : PState)
    (xs ys : List (Except String XmlToken)) :
    runT ts st (xs ++ ys) =
      match runT ts st xs with
      | .error e => .error e
      | .ok (st', true) => .ok (st', true)
      | .ok (st', false) => runT ts st' ys := by
  induction xs generalizing st with
  | nil => simp [runT]
  | cons x xs ih =>
    cases x with
    | error m => simp [runT]
    | ok tok =>
      simp only [List.cons_append, runT]
      cases h : step ts st tok with
      | error e => simp
      | ok p =>
        obtain ⟨st', b⟩ := p
        cases b with
        | false => simpa using ih st'
        | true => simp

/-- Claim C2: on the spec's concrete scenario markup (one `p` timed
1.000s-2.000s with two timed `span` children "Hello" and "world") and
language "en", extraction yields one paragraph with one line of text
"Hello world", start 1.000s, end 2.000s, and parts ("Hello", 1.000-1.500s)
then ("world", 1.500-2.000s) in that order. -/
theorem C2_concrete_scenario :
    parse_ttml parse_lrc_timestamp c2Tokens "en" =
      .ok { paragraphs :=
              [[{ text := "Hello world", start := some 1000, «end» := some 2000,
                  parts := [{ text := "Hello", start := some 1000, «end» := some 1500 },
                            { text := "world", start := some 1500, «end» := some 2000 }] }]],
            language := "en" } := by
  rfl

/-- Claim C3: extraction stops at a close event for "body" and is unaffected
by everything after it — for every prefix `s` followed by a body close and
every trailing suffix `t`, extracting the whole stream equals extracting the
prefix up to and including the body close. -/
theorem C3_early_termination (ts : String → Except String Nat)
    (s t : List (Except String XmlToken)) (lang : String) :
    parse_ttml ts (s ++ .ok (.elementEnd (some "body")) :: t) lang =
      parse_ttml ts (s ++ [.ok (.elementEnd (some "body"))]) lang := by
  have key : runT ts initState (s ++ .ok (.elementEnd (some "body")) :: t) =
      runT ts initState (s ++ [.ok (.elementEnd (some "body"))]) := by
    rw [runT_append, runT_append]
    cases h : runT ts initState s with
    | error e => rfl
    | ok p =>
      obtain ⟨st', b⟩ := p
      cases b with
      | false => rfl
      | true => rfl
  unfold parse_ttml
  rw [key]

/-- Claim C7: on inputs holding a close event for an element whose
in-progress state was never established (a "span" close with no open part,
or a second "p" close after the line was already taken), the extractor hits
`unwrap()` on an empty `Option` and aborts abnormally (modelled as the
distinguished `PErr.panicErr`, not an ordinary error return and not a
document). -/
theorem C7_unmatched_close_panics :
    parse_ttml parse_lrc_timestamp
      [.ok (.elementStart "body"), .ok (.elementStart "p"),
       .ok (.elementStart "span"), .ok (.elementEnd (some "span")),
       .ok (.elementEnd (some "span"))] "en" = .error .panicErr ∧
    parse_ttml parse_lrc_timestamp
      [.ok (.elementStart "body"), .ok (.elementStart "p"), .ok (.elementEnd (some "p")),
       .ok (.elementEnd (some "p"))] "en" = .error .panicErr :=
  ⟨rfl, rfl⟩

/-- Claim C9: extraction is deterministic — the same token stream and
language always yield structurally equal documents. -/
theorem C9_deterministic (ts : String → Except String Nat)
    (toks : List (Except String XmlToken)) (lang : String) (d1 d2 : Lyrics)
    (h1 : parse_ttml ts toks lang = .ok d1)
    (h2 : parse_ttml ts toks lang = .ok d2) : d1 = d2 := by
  rw [h1] at h2
  injection h2

/-- Witness for C9 at a concrete input: the empty stream parses to the empty
document, and the two runs agree. -/
theorem C9_deterministic_witness :
    parse_ttml parse_lrc_timestamp [] "en" = .ok { paragraphs := [], language := "en" } ∧
    ({ paragraphs := [], language := "en" } : Lyrics) = { paragraphs := [], language := "en" } :=
  ⟨rfl, C9_deterministic parse_lrc_timestamp [] "en" _ _ rfl rfl⟩

/-- Counterexample to claim C5: in the Outside state (before any "body"
open), element-close events are not ignored — a lone "div" close contributes
an empty paragraph to the output, and a lone "p" close makes extraction
abort abnormally, contradicting "changes no state, contributes nothing, and
cannot cause extraction to fail". -/
theorem C5_counterexample :
    parse_ttml parse_lrc_timestamp [.ok (.elementEnd (some "div"))] "en" =
      .ok { paragraphs := [[]], language := "en" } ∧
    parse_ttml parse_lrc_timestamp [] "en" =
      .ok { paragraphs := [], language := "en" } ∧
    parse_ttml parse_lrc_timestamp [.ok (.elementEnd (some "p"))] "en" =
      .error .panicErr :=
  ⟨rfl, rfl, rfl⟩

/-- Claim C5 (amended): in the Outside state (body flag unset, no line or
part in progress), element-open events not named "body", attribute events,
text events, non-close element ends and all other token kinds are ignored;
but element-close events are processed regardless of state: a "div" close
appends the paragraph buffer, a "body" close terminates extraction, and a
"p" or "span" close aborts abnormally. -/
theorem C5_outside_behaviour (ts : String → Except String Nat) (st : PState)
    (hb : st.is_body = false) (hlh : st.is_line_header = false)
    (hsl : st.is_synced_line = false) (hln : st.line = none)
    (hpt : st.part = none) :
    (∀ l, l ≠ "body" → step ts st (.elementStart l) = .ok (st, false)) ∧
    (∀ l v, step ts st (.attr l v) = .ok (st, false)) ∧
    (∀ s, step ts st (.text s) = .ok (st, false)) ∧
    step ts st (.elementEnd none) = .ok (st, false) ∧
    step ts st .other = .ok (st, false) ∧
    step ts st (.elementEnd (some "div")) =
      .ok ({ st with paragraphs := st.paragraphs ++ [st.paragraph], paragraph := [] }, false) ∧
    step ts st (.elementEnd (some "body")) = .ok (st, true) ∧
    step ts st (.elementEnd (some "p")) = .error .panicErr ∧
    step ts st (.elementEnd (some "span")) = .error .panicErr := by
  obtain ⟨b1, b2, b3, Ps, P, lo, po⟩ := st
  simp only [PState.is_body] at hb
  simp only [PState.is_line_header] at hlh
  simp only [PState.is_synced_line] at hsl
  simp only [PState.line] at hln
  simp only [PState.part] at hpt
  subst hb hlh hsl hln hpt
  refine ⟨?_, ?_, ?_, rfl, rfl, rfl, rfl, rfl, rfl⟩
  · intro l hl
    simp [step, hl]
  · intro l v
    rfl
  · intro s
    rfl

/-- Witness for the amended C5 at the initial state and concrete tokens. -/
theorem C5_outside_behaviour_witness :
    step parse_lrc_timestamp initState (.elementStart "div") = .ok (initState, false) ∧
    step parse_lrc_timestamp initState (.attr "begin" "0:01.000") = .ok (initState, false) ∧
    step parse_lrc_timestamp initState (.text "hi") = .ok (initState, false) ∧
    step parse_lrc_timestamp initState (.elementEnd (some "div")) =
      .ok ({ initState with
             paragraphs := initState.paragraphs ++ [initState.paragraph],
             paragraph := [] }, false) ∧
    step parse_lrc_timestamp initState (.elementEnd (some "body")) = .ok (initState, true) ∧
    step parse_lrc_timestamp initState (.elementEnd (some "p")) = .error .panicErr := by
  have h := C5_outside_behaviour parse_lrc_timestamp initState rfl rfl rfl rfl rfl
  exact ⟨h.1 "div" (by decide), h.2.1 "begin" "0:01.000", h.2.2.1 "hi",
         h.2.2.2.2.2.1, h.2.2.2.2.2.2.1, h.2.2.2.2.2.2.2.1⟩

/-- Running the loop over one `p` with a single direct text child from an
in-body state appends the finished plain line to the paragraph buffer and
returns to an in-body state. -/
theorem runT_pDirect (ts : String → Except String Nat) (t : String)
    (rest : List (Except String XmlToken)) (b2 b3 : Bool)
    (Ps : List (List LyricsLine)) (P : List LyricsLine)
    (lo : Option LyricsLine) (po : Option LyricsLinePart) :
    runT ts ⟨true, b2, b3, Ps, P, lo, po⟩ (pDirectToks t ++ rest) =
      runT ts ⟨true, false, false, Ps, P ++ [plainLine t], none, po⟩ rest := by
  have h0 : runT ts ⟨true, b2, b3, Ps, P, lo, po⟩ (pDirectToks t ++ rest) =
      runT ts ⟨true, false, false, Ps,
        P ++ [if t = "" then
                { text := joinParts [], start := none, «end» := none, parts := [] }
              else { text := t, start := none, «end» := none, parts := [] }],
        none, po⟩ rest := rfl
  rw [h0]
  by_cases h : t = ""
  · subst h
    rfl
  · simp [h, plainLine]

/-- Running the loop over a sequence of `span` children from a state with an
open line collects one untimed part per span, in source order; after at
least one span the line-header flag is left cleared. -/
theorem runT_spans (ts : String → Except String Nat)
    (rest : List (Except String XmlToken)) (Ps : List (List LyricsLine))
    (P : List LyricsLine) (tx : String) (s e : Option Nat) :
    ∀ (ps : List String) (b : Bool) (prts : List LyricsLinePart),
    runT ts ⟨true, b, false, Ps, P, some ⟨tx, s, e, prts⟩, none⟩ (spanToks ps ++ rest) =
      runT ts ⟨true, (if ps.isEmpty then b else false), false, Ps, P,
               some ⟨tx, s, e, prts ++ ps.map plainPart⟩, none⟩ rest := by
  intro ps
  induction ps with
  | nil =>
    intro b prts
    simp [spanToks]
  | cons u ps ih =>
    intro b prts
    have h1 : spanToks (u :: ps) ++ rest =
        .ok (.elementStart "span") :: .ok (.text u) :: .ok (.elementEnd (some "span")) ::
          (spanToks ps ++ rest) := by
      simp [spanToks]
    rw [h1]
    have h2 : runT ts ⟨true, b, false, Ps, P, some ⟨tx, s, e, prts⟩, none⟩
        (.ok (.elementStart "span") :: .ok (.text u) :: .ok (.elementEnd (some "span")) ::
          (spanToks ps ++ rest)) =
        runT ts ⟨true, false, false, Ps, P,
          some ⟨tx, s, e, prts ++ [{ text := u, start := none, «end» := none }]⟩, none⟩
          (spanToks ps ++ rest) := rfl
    rw [h2, ih]
    simp [plainPart]

/-- Closing the current `p` (whose direct text is empty), then its `div`,
then the `body` flushes the merged line and the paragraph and breaks. -/
theorem runT_finish (ts : String → Except String Nat) (b : Bool)
    (Ps : List (List LyricsLine)) (P : List LyricsLine) (s e : Option Nat)
    (prts : List LyricsLinePart) (po : Option LyricsLinePart) :
    runT ts ⟨true, b, false, Ps, P, some ⟨"", s, e, prts⟩, po⟩
      [.ok (.elementEnd (some "p")), .ok (.elementEnd (some "div")),
       .ok (.elementEnd (some "body"))] =
      .ok (⟨true, false, false, Ps ++ [P ++ [⟨joinParts prts, s, e, prts⟩]], [], none, po⟩,
           true) := rfl

/-- Claim C1: text-merge rule for a body with one `p` element — with a
direct text child (and no spans) the output is one line carrying that text
verbatim with empty parts; with no direct text and one `span` per string of
`ps` (each nonempty) the output is one line whose text is the space-joined
concatenation of the part texts in source order and whose parts list has
one entry per span. -/
theorem C1_text_merge (ts : String → Except String Nat) (lang txt : String)
    (ps : List String) (htxt : txt ≠ "") (hps : ∀ u ∈ ps, u ≠ "") :
    parse_ttml ts (oneDirectLineToks txt) lang =
      .ok { paragraphs := [[plainLine txt]], language := lang } ∧
    parse_ttml ts (oneSyncedLineToks ps) lang =
      .ok { paragraphs :=
              [[{ text := String.intercalate " " ps, start := none, «end» := none,
                  parts := ps.map plainPart }]],
            language := lang } ∧
    (ps.map plainPart).length = ps.length := by
  refine ⟨?_, ?_, by simp⟩
  · unfold parse_ttml
    have h0 : runT ts initState (oneDirectLineToks txt) =
        runT ts ⟨true, false, false, [], [], none, none⟩
          (pDirectToks txt ++
            [.ok (.elementEnd (some "div")), .ok (.elementEnd (some "body"))]) := rfl
    rw [h0, runT_pDirect]
    rfl
  · unfold parse_ttml
    have h0 : runT ts initState (oneSyncedLineToks ps) =
        runT ts ⟨true, true, false, [], [], some ⟨"", none, none, []⟩, none⟩
          (spanToks ps ++
            [.ok (.elementEnd (some "p")), .ok (.elementEnd (some "div")),
             .ok (.elementEnd (some "body"))]) := rfl
    rw [h0, runT_spans, runT_finish]
    have hjoin : joinParts (List.map plainPart ps) = String.intercalate " " ps := by
      have hcomp : ((fun p : LyricsLinePart => p.text) ∘ plainPart) = fun u : String => u := by
        funext u
        rfl
      simp [joinParts, hcomp]
    simp [hjoin]

/-- Witness for C1 at concrete inputs: direct text "Hi", spans "a" and "b". -/
theorem C1_text_merge_witness :
    parse_ttml parse_lrc_timestamp (oneDirectLineToks "Hi") "en" =
      .ok { paragraphs := [[plainLine "Hi"]], language := "en" } ∧
    parse_ttml parse_lrc_timestamp (oneSyncedLineToks ["a", "b"]) "en" =
      .ok { paragraphs :=
              [[{ text := String.intercalate " " ["a", "b"], start := none, «end» := none,
                  parts := ["a", "b"].map plainPart }]],
            language := "en" } := by
  have h := C1_text_merge parse_lrc_timestamp "en" "Hi" ["a", "b"] (by decide) (by decide)
  exact ⟨h.1, h.2.1⟩

/-- Counterexample to claim C6: on
`<body><div><p><span>Hello</span>after</p></div></body>` the text event
"after" that follows the closed `span` inside the `p` does NOT set the
line's text — the extractor is not back in the line-header state, so the
text is dropped and the line's text is merged from the parts ("Hello"),
not "after". -/
theorem C6_counterexample :
    parse_ttml parse_lrc_timestamp c6Tokens "en" =
      .ok { paragraphs :=
              [[{ text := "Hello", start := none, «end» := none,
                  parts := [{ text := "Hello", start := none, «end» := none }] }]],
            language := "en" } ∧
    parse_ttml parse_lrc_timestamp c6Tokens "en" ≠
      .ok { paragraphs :=
              [[{ text := "after", start := none, «end» := none,
                  parts := [{ text := "Hello", start := none, «end» := none }] }]],
            language := "en" } := by
  refine ⟨rfl, ?_⟩
  decide

/-- Claim C6 (amended): a "span" close appends the finished part to the
current line's parts and clears the synced flag, but leaves the line-header
flag unchanged (it stays cleared inside a `p` whose `span` was opened), so a
subsequent text event inside the `p` after the closed `span` is ignored
rather than setting the line's text. -/
theorem C6_span_close (ts : String → Except String Nat) (st : PState) :
    (∀ ln pt, st.line = some ln → st.part = some pt →
      step ts st (.elementEnd (some "span")) =
        .ok ({ st with
               is_synced_line := false,
               part := none,
               line := some { ln with parts := ln.parts ++ [pt] } }, false) ∧
      ({ st with
         is_synced_line := false,
         part := none,
         line := some { ln with parts := ln.parts ++ [pt] } } : PState).is_line_header
        = st.is_line_header) ∧
    (∀ s, st.is_line_header = false → st.is_synced_line = false →
      step ts st (.text s) = .ok (st, false)) := by
  constructor
  · intro ln pt hln hpt
    refine ⟨?_, rfl⟩
    simp [step, hln, hpt]
  · intro s h1 h2
    simp [step, h1, h2]
    rfl

/-- Witness for the amended C6 at a concrete in-span state. -/
theorem C6_span_close_witness :
    step parse_lrc_timestamp
      ⟨true, false, true, [], [],
       some { text := "", start := none, «end» := none, parts := [] },
       some { text := "Hello", start := none, «end» := none }⟩
      (.elementEnd (some "span")) =
      .ok (⟨true, false, false, [], [],
            some { text := "", start := none, «end» := none,
                   parts := [{ text := "Hello", start := none, «end» := none }] },
            none⟩, false) ∧
    step parse_lrc_timestamp
      ⟨true, false, false, [], [],
       some { text := "", start := none, «end» := none,
              parts := [{ text := "Hello", start := none, «end» := none }] },
       none⟩
      (.text "after") =
      .ok (⟨true, false, false, [], [],
            some { text := "", start := none, «end» := none,
                   parts := [{ text := "Hello", start := none, «end» := none }] },
            none⟩, false) := by
  have h1 := (C6_span_close parse_lrc_timestamp
    ⟨true, false, true, [], [],
     some { text := "", start := none, «end» := none, parts := [] },
     some { text := "Hello", start := none, «end» := none }⟩).1
    { text := "", start := none, «end» := none, parts := [] }
    { text := "Hello", start := none, «end» := none } rfl rfl
  have h2 := (C6_span_close parse_lrc_timestamp
    ⟨true, false, false, [], [],
     some { text := "", start := none, «end» := none,
            parts := [{ text := "Hello", start := none, «end» := none }] },
     none⟩).2 "after" rfl rfl
  exact ⟨h1.1, h2⟩

/-- Claim C8: a body with two `div` blocks, each holding one `p`, yields
exactly two paragraphs of one line each, in source order; and a "div" close
always appends the current paragraph buffer (even when empty) to the
paragraph list and clears the buffer. -/
theorem C8_paragraph_grouping (ts : String → Except String Nat)
    (lang t1 t2 : String) :
    parse_ttml ts (twoDivToks t1 t2) lang =
      .ok { paragraphs := [[plainLine t1], [plainLine t2]], language := lang } ∧
    (∀ st, step ts st (.elementEnd (some "div")) =
      .ok ({ st with
             is_line_header := false,
             is_synced_line := false,
             paragraphs := st.paragraphs ++ [st.paragraph],
             paragraph := [] }, false)) := by
  constructor
  · unfold parse_ttml
    have h0 : runT ts initState (twoDivToks t1 t2) =
        runT ts ⟨true, false, false, [], [], none, none⟩
          (pDirectToks t1 ++
            (.ok (.elementEnd (some "div")) :: .ok (.elementStart "div") ::
              (pDirectToks t2 ++
                [.ok (.elementEnd (some "div")), .ok (.elementEnd (some "body"))]))) := rfl
    rw [h0, runT_pDirect]
    have h1 : runT ts ⟨true, false, false, [], [] ++ [plainLine t1], none, none⟩
        (.ok (.elementEnd (some "div")) :: .ok (.elementStart "div") ::
          (pDirectToks t2 ++
            [.ok (.elementEnd (some "div")), .ok (.elementEnd (some "body"))])) =
        runT ts ⟨true, false, false, [] ++ [[] ++ [plainLine t1]], [], none, none⟩
          (pDirectToks t2 ++
            [.ok (.elementEnd (some "div")), .ok (.elementEnd (some "body"))]) := rfl
    rw [h1, runT_pDirect]
    rfl
  · intro st
    rfl

/-- Claim C10: lines pushed to the paragraph buffer after the last `div`
close (or in a body with no `div` close at all) are silently discarded —
the returned document holds exactly the paragraphs flushed by `div` closes,
never the in-progress buffer. -/
theorem C10_unflushed_discarded (ts : String → Except String Nat)
    (lang t1 t2 : String) :
    parse_ttml ts (unflushedToks t1 t2) lang =
      .ok { paragraphs := [[plainLine t1]], language := lang } ∧
    parse_ttml ts (noDivToks t2) lang =
      .ok { paragraphs := [], language := lang } ∧
    (∀ toks st b, runT ts initState toks = .ok (st, b) →
      parse_ttml ts toks lang = .ok { paragraphs := st.paragraphs, language := lang }) := by
  refine ⟨?_, ?_, ?_⟩
  · unfold parse_ttml
    have h0 : runT ts initState (unflushedToks t1 t2) =
        runT ts ⟨true, false, false, [], [], none, none⟩
          (pDirectToks t1 ++
            (.ok (.elementEnd (some "div")) ::
              (pDirectToks t2 ++ [.ok (.elementEnd (some "body"))]))) := rfl
    rw [h0, runT_pDirect]
    have h1 : runT ts ⟨true, false, false, [], [] ++ [plainLine t1], none, none⟩
        (.ok (.elementEnd (some "div")) ::
          (pDirectToks t2 ++ [.ok (.elementEnd (some "body"))])) =
        runT ts ⟨true, false, false, [] ++ [[] ++ [plainLine t1]], [], none, none⟩
          (pDirectToks t2 ++ [.ok (.elementEnd (some "body"))]) := rfl
    rw [h1, runT_pDirect]
    rfl
  · unfold parse_ttml
    have h0 : runT ts initState (noDivToks t2) =
        runT ts ⟨true, false, false, [], [], none, none⟩
          (pDirectToks t2 ++ [.ok (.elementEnd (some "body"))]) := rfl
    rw [h0, runT_pDirect]
    rfl
  · intro toks st b h
    unfold parse_ttml
    rw [h]

/-- Witness for C10 at concrete inputs. -/
theorem C10_unflushed_discarded_witness :
    parse_ttml parse_lrc_timestamp (unflushedToks "kept" "lost") "en" =
      .ok { paragraphs := [[plainLine "kept"]], language := "en" } ∧
    parse_ttml parse_lrc_timestamp (noDivToks "lost") "en" =
      .ok { paragraphs := [], language := "en" } ∧
    parse_ttml parse_lrc_timestamp [] "en" =
      .ok { paragraphs := initState.paragraphs, language := "en" } := by
  have h := C10_unflushed_discarded parse_lrc_timestamp "en" "kept" "lost"
  exact ⟨h.1, h.2.1, h.2.2 [] initState false rfl⟩

/-- Claim C4: at line scope (inside a `p` header, where `is_line_header`
holds and a line is open) and at part scope (inside a `span`, where
`is_synced_line` holds and a part is open), a "begin"/"end" attribute whose
value the external timestamp parser accepts sets exactly that parser result
as the line's or part's start/end field; a value the parser rejects makes
the step — and hence the whole extraction — fail with the propagated fatal
timestamp error, returning no document. -/
theorem C4_timestamp_attributes (ts : String → Except String Nat)
    (st : PState) (v : String) :
    ((∀ ln d, st.is_line_header = true → st.is_synced_line = false →
        st.line = some ln → ts v = .ok d →
        step ts st (.attr "begin" v) =
          .ok ({ st with line := some { ln with start := some d } }, false) ∧
        step ts st (.attr "end" v) =
          .ok ({ st with line := some { ln with «end» := some d } }, false)) ∧
     (∀ pt d, st.is_line_header = false → st.is_synced_line = true →
        st.part = some pt → ts v = .ok d →
        step ts st (.attr "begin" v) =
          .ok ({ st with part := some { pt with start := some d } }, false) ∧
        step ts st (.attr "end" v) =
          .ok ({ st with part := some { pt with «end» := some d } }, false))) ∧
    ((∀ ln e, st.is_line_header = true → st.line = some ln → ts v = .error e →
        step ts st (.attr "begin" v) = .error (.tsErr e) ∧
        step ts st (.attr "end" v) = .error (.tsErr e)) ∧
     (∀ pt e, st.is_line_header = false → st.is_synced_line = true →
        st.part = some pt → ts v = .error e →
        step ts st (.attr "begin" v) = .error (.tsErr e) ∧
        step ts st (.attr "end" v) = .error (.tsErr e)) ∧
     (∀ pre rest lang e st' ln, runT ts initState pre = .ok (st', false) →
        st'.is_line_header = true → st'.line = some ln → ts v = .error e →
        parse_ttml ts (pre ++ .ok (.attr "begin" v) :: rest) lang =
          .error (.tsErr e))) := by
  refine ⟨⟨?_, ?_⟩, ?_, ?_, ?_⟩
  · intro ln d h1 h2 h3 h4
    constructor
    · simp [step, h1, h2, h3, tsRun, h4]
    · simp [step, h1, h2, h3, tsRun, h4]
  · intro pt d h1 h2 h3 h4
    constructor
    · simp [step, h1, h2, h3, tsRun, h4]
    · simp [step, h1, h2, h3, tsRun, h4]
  · intro ln e h1 h2 h3
    constructor
    · simp [step, h1, h2, tsRun, h3]
      rfl
    · simp [step, h1, h2, tsRun, h3]
      rfl
  · intro pt e h1 h2 h3 h4
    constructor
    · simp [step, h1, h2, h3, tsRun, h4]
    · simp [step, h1, h2, h3, tsRun, h4]
  · intro pre rest lang e st' ln hpre h1 h2 h3
    unfold parse_ttml
    rw [runT_append, hpre]
    simp [runT, step, h1, h2, tsRun, h3]
    rfl

/-- Witness for C4 at concrete states and values: accepted timestamp
"0:01.000" (1000 ms) at line and part scope, rejected value "bad" at line
scope, and the whole-extraction failure on a stream reaching that
attribute. -/
theorem C4_timestamp_attributes_witness :
    step parse_lrc_timestamp
      ⟨true, true, false, [], [],
       some { text := "", start := none, «end» := none, parts := [] }, none⟩
      (.attr "begin" "0:01.000") =
      .ok (⟨true, true, false, [], [],
            some { text := "", start := some 1000, «end» := none, parts := [] }, none⟩,
           false) ∧
    step parse_lrc_timestamp
      ⟨true, false, true, [], [],
       some { text := "", start := none, «end» := none, parts := [] },
       some { text := "", start := none, «end» := none }⟩
      (.attr "end" "0:01.000") =
      .ok (⟨true, false, true, [], [],
            some { text := "", start := none, «end» := none, parts := [] },
            some { text := "", start := none, «end» := some 1000 }⟩, false) ∧
    step parse_lrc_timestamp
      ⟨true, true, false, [], [],
       some { text := "", start := none, «end» := none, parts := [] }, none⟩
      (.attr "begin" "bad") = .error (.tsErr "bad") ∧
    parse_ttml parse_lrc_timestamp
      [.ok (.elementStart "body"), .ok (.elementStart "p"), .ok (.attr "begin" "bad")]
      "en" = .error (.tsErr "bad") := by
  have hA := (C4_timestamp_attributes parse_lrc_timestamp
    ⟨true, true, false, [], [],
     some { text := "", start := none, «end» := none, parts := [] }, none⟩ "0:01.000").1.1
    { text := "", start := none, «end» := none, parts := [] } 1000 rfl rfl rfl rfl
  have hB := (C4_timestamp_attributes parse_lrc_timestamp
    ⟨true, false, true, [], [],
     some { text := "", start := none, «end» := none, parts := [] },
     some { text := "", start := none, «end» := none }⟩ "0:01.000").1.2
    { text := "", start := none, «end» := none } 1000 rfl rfl rfl rfl
  have hC := (C4_timestamp_attributes parse_lrc_timestamp
    ⟨true, true, false, [], [],
     some { text := "", start := none, «end» := none, parts := [] }, none⟩ "bad").2.1
    { text := "", start := none, «end» := none, parts := [] } "bad" rfl rfl rfl
  have hD := (C4_timestamp_attributes parse_lrc_timestamp
    ⟨true, true, false, [], [],
     some { text := "", start := none, «end» := none, parts := [] }, none⟩ "bad").2.2.2
    [.ok (.elementStart "body"), .ok (.elementStart "p")] [] "en" "bad"
    ⟨true, true, false, [], [],
     some { text := "", start := none, «end» := none, parts := [] }, none⟩
    { text := "", start := none, «end» := none, parts := [] } rfl rfl rfl rfl
  exact ⟨hA.1, hB.2, hC.1, hD⟩
